import Mathlib

/-!
# Verification of the checkout Classification & Correlation Engine

A shallow embedding, in Lean 4, of the core of the checkout-extension
repository:

* the rule-driven call classifier of `src/checkout-call-analyzer.js`
  (`CheckoutCallAnalyzer`: `addCallType`, `matchesCallType`, `analyzeCall`,
  `hasNestedKey`, the default call-type registry, `extractCheckoutId`, ...);
* the diagnostic-log parser of `src/unnamed/part_000`
  (`SalesforceLogger.parseLogContent`, `extractTimestamp`);
* the correlation engine of `src/unnamed/part_001`
  (`CorrelationEngine.correlateAll`, `calculateCorrelation`,
  `calculateOperationMatch`, `calculateContentMatch`, `calculateErrorMatch`,
  `calculateIdMatch`, `extractKeywords`, `calculateStringSimilarity`,
  `levenshteinDistance`, `determineCorrelationType`).

Strings are embedded as lists of characters (`Str`), JavaScript numbers as
`Int`/`ℚ`, structured (JSON-like) payloads as the inductive type `JVal`, and
JavaScript's stable `Array.prototype.sort` as Mathlib's stable
`List.insertionSort`.  Theorems about the spec's claims follow the
definitions.
-/

/-- Strings as lists of characters (JavaScript strings). -/
abbrev Str := List Char

/-- `String.toLowerCase()`. -/
def lowerStr (s : Str) : Str := s.map Char.toLower

/-- `String.toUpperCase()`. -/
def upperStr (s : Str) : Str := s.map Char.toUpper

/-- `haystack.includes(needle)` — substring test. -/
def includesStr (hay needle : Str) : Bool := decide (needle <:+: hay)

/-- JavaScript `String.prototype.trim()` whitespace class (the characters
that occur in the embedded log lines). -/
def isWsChar (c : Char) : Bool := c = ' ' ∨ c = '\t' ∨ c = '\n' ∨ c = '\r'

/-- `line.trim()`. -/
def trimStr (s : Str) : Str :=
  ((s.dropWhile isWsChar).reverse.dropWhile isWsChar).reverse

/-- Structured (JSON-like) payload values: the request/response bodies the
analyzer inspects.  `JVal.null` also stands for JavaScript `null`. -/
inductive JVal where
  | null : JVal
  | bool : Bool → JVal
  | num : Int → JVal
  | str : Str → JVal
  | arr : List JVal → JVal
  | obj : List (Str × JVal) → JVal

/-- JavaScript truthiness of a value. -/
def jTruthy : JVal → Bool
  | .null => false
  | .bool b => b
  | .num n => n ≠ 0
  | .str s => s ≠ []
  | .arr _ => true
  | .obj _ => true

/-- Truthiness of a possibly-absent value (`undefined` is falsy). -/
def optTruthy : Option JVal → Bool
  | none => false
  | some v => jTruthy v

/-- Property access `v?.key` on an object; `undefined` (= `none`) on
anything that is not an object with that key. -/
def getField : JVal → Str → Option JVal
  | .obj fields, key => (fields.find? (fun p => p.1 = key)).map (·.2)
  | _, _ => none

/-- Chained optional access `o?.key`. -/
def getF (o : Option JVal) (key : Str) : Option JVal :=
  o.bind (fun v => getField v key)

/-- JavaScript `a || b` on possibly-absent values: `a` when truthy,
otherwise `b`. -/
def jsOr (a b : Option JVal) : Option JVal :=
  if optTruthy a then a else b

/-- `typeof x === "object"` (true for objects, arrays and `null`). -/
def isObjType : JVal → Bool
  | .obj _ => true
  | .arr _ => true
  | .null => true
  | _ => false

/-- Direct own-property check `obj.hasOwnProperty(key)` (arrays have no
own string-named key in this model). -/
def hasOwnKey (fields : List (Str × JVal)) (key : Str) : Bool :=
  fields.any (fun p => p.1 = key)

mutual
/-- `CheckoutCallAnalyzer.hasNestedKey` (src/checkout-call-analyzer.js):
returns false on non-objects, checks the direct key, then recurses into
every property value of object type.  The recursion is structural and has
no depth cap. -/
def hasNestedKey : JVal → Str → Bool
  | .obj fields, key => hasOwnKey fields key || hasNestedKeyFields fields key
  | .arr elems, key => hasNestedKeyElems elems key
  | _, _ => false

/-- The `for (const prop in obj)` loop of `hasNestedKey` over an object's
properties. -/
def hasNestedKeyFields : List (Str × JVal) → Str → Bool
  | [], _ => false
  | (_, v) :: rest, key =>
    (isObjType v && hasNestedKey v key) || hasNestedKeyFields rest key

/-- The `for (const prop in obj)` loop of `hasNestedKey` over an array's
elements. -/
def hasNestedKeyElems : List JVal → Str → Bool
  | [], _ => false
  | v :: rest, key =>
    (isObjType v && hasNestedKey v key) || hasNestedKeyElems rest key
end

mutual
/-- Modelled from the spec: §9 describes the nested-key search as "a
bounded-depth recursive structural search over generic structured data
(mapping/sequence/scalar), capped to prevent cycles or pathological depth" —
this is the depth-capped variant of `hasNestedKey` that the spec's words
describe (the fuel decreases on every recursion into a child; at fuel 0 the
search gives up).  `src/checkout-call-analyzer.js`'s `hasNestedKey` has no
such cap; this definition exists to compare the two. -/
def hasNestedKeyCapped : Nat → JVal → Str → Bool
  | 0, _, _ => false
  | Nat.succ d, .obj fields, key =>
    hasOwnKey fields key || hasNestedKeyCappedFields d fields key
  | Nat.succ d, .arr elems, key => hasNestedKeyCappedElems d elems key
  | Nat.succ _, _, _ => false

/-- Capped search over an object's properties. -/
def hasNestedKeyCappedFields : Nat → List (Str × JVal) → Str → Bool
  | _, [], _ => false
  | d, (_, v) :: rest, key =>
    (isObjType v && hasNestedKeyCapped d v key) || hasNestedKeyCappedFields d rest key

/-- Capped search over an array's elements. -/
def hasNestedKeyCappedElems : Nat → List JVal → Str → Bool
  | _, [], _ => false
  | d, v :: rest, key =>
    (isObjType v && hasNestedKeyCapped d v key) || hasNestedKeyCappedElems d rest key
end

mutual
/-- Nesting depth of a structured value (number of object/array levels). -/
def jDepth : JVal → Nat
  | .obj fields => jDepthFields fields + 1
  | .arr elems => jDepthElems elems + 1
  | _ => 0

/-- Maximal depth over an object's property values. -/
def jDepthFields : List (Str × JVal) → Nat
  | [] => 0
  | (_, v) :: rest => max (jDepth v) (jDepthFields rest)

/-- Maximal depth over an array's elements. -/
def jDepthElems : List JVal → Nat
  | [] => 0
  | v :: rest => max (jDepth v) (jDepthElems rest)
end

/-! ## The network-call analyzer (src/checkout-call-analyzer.js) -/

/-- One observed request/response exchange (an Interaction).  `requestBody`
and `response` are the structured bodies (`none` = absent or unparseable —
`parseRequestBody` returns `null` in either case).  `checkoutId` and
`webstoreId` are the identifier properties the pipeline attaches to a call
before correlation. -/
structure Call where
  url : Str
  method : Str
  status : Int
  timestamp : Int
  requestBody : Option JVal := none
  response : Option JVal := none
  checkoutId : Option Str := none
  webstoreId : Option Str := none

/-- `CheckoutCallAnalyzer.parseRequestBody`: the body is already
structured in this model; a JSON string that fails to parse is `none`. -/
def parseRequestBody (requestBody : Option JVal) : Option JVal := requestBody

/-- A call-type configuration as stored by `addCallType` (every field is
defaulted there, so all fields are always present; in particular
`payloadMatchers` is always an array — possibly empty). -/
structure CallType where
  name : Str
  urlPatterns : List Str
  methods : List Str
  stage : Str
  payloadMatchers : List (Call → Bool)
  extractors : List (Str × (Call → Option JVal))
  validators : List (Str × (Call → Bool))
  priority : Int

/-- `CheckoutCallAnalyzer.matchesCallType`.  Note that the final
condition in the source is
`(urlMatches && methodMatches && payloadMatches) ||
 (typeConfig.payloadMatchers && payloadMatches && methodMatches)`;
`typeConfig.payloadMatchers` is always an array (set by `addCallType`),
and an array — even an empty one — is truthy in JavaScript, so the guard
of the second disjunct is constantly true. -/
def matchesCallType (callData : Call) (typeConfig : CallType) : Bool :=
  let url := lowerStr callData.url
  let method := upperStr callData.method
  let urlMatches := typeConfig.urlPatterns.any (fun pattern => includesStr url (lowerStr pattern))
  let methodMatches := typeConfig.methods.contains method
  let payloadMatches :=
    if typeConfig.payloadMatchers.length > 0 then
      typeConfig.payloadMatchers.any (fun matcher => matcher callData)
    else true
  (urlMatches && methodMatches && payloadMatches) || (payloadMatches && methodMatches)

/-- The output of `analyzeCall`: the enhanced call (`{ ...callData }` plus
the properties the analyzer adds).  `extracted` lists the extractor results
that were non-null/non-undefined, `validatorResults` the validator
results. -/
structure Enhanced where
  callType : Option Str := none
  checkoutStage : Option Str := none
  extracted : List (Str × JVal) := []
  validatorResults : List (Str × Bool) := []

/-- Applying the primary (highest-priority) match's extractors and
validators, as in the body of `analyzeCall`'s `if (matchedTypes.length > 0)`
branch.  An extracted value is recorded only when it is
`!== null && !== undefined`. -/
def applyPrimary (primary : CallType) (callData : Call) : Enhanced where
  callType := some primary.name
  checkoutStage := some primary.stage
  extracted := primary.extractors.filterMap
    (fun ef =>
      match ef.2 callData with
      | some JVal.null => none
      | some v => some (ef.1, v)
      | none => none)
  validatorResults := primary.validators.map (fun vf => (vf.1, vf.2 callData))

/-- `CheckoutCallAnalyzer.analyzeCall`: collect the matching call types (in
registration order — `this.callTypes` is an insertion-ordered `Map`), sort
them by descending priority with JavaScript's stable `Array.prototype.sort`
(modelled by the stable `List.insertionSort`), and apply the first. -/
def analyzeCall (callTypes : List CallType) (callData : Call) : Enhanced :=
  let matchedTypes := callTypes.filter (fun t => matchesCallType callData t)
  let sorted := List.insertionSort (fun a b => b.priority ≤ a.priority) matchedTypes
  match sorted.head? with
  | none => {}
  | some primary => applyPrimary primary callData

/-! ## Payload-analysis helpers of the analyzer -/

/-- `CheckoutCallAnalyzer.hasPayloadKeys`. -/
def hasPayloadKeys (callData : Call) (keys : List Str) : Bool :=
  match parseRequestBody callData.requestBody with
  | none => false
  | some payload =>
    if jTruthy payload then keys.any (fun key => hasNestedKey payload key) else false

/-- `CheckoutCallAnalyzer.hasResponseKeys`. -/
def hasResponseKeys (callData : Call) (keys : List Str) : Bool :=
  match callData.response with
  | none => false
  | some response =>
    if jTruthy response then keys.any (fun key => hasNestedKey response key) else false

/-- `CheckoutCallAnalyzer.hasUrlPath`. -/
def hasUrlPath (callData : Call) (path : Str) : Bool :=
  includesStr (lowerStr callData.url) (lowerStr path)

/-- `CheckoutCallAnalyzer.hasAddressInPayload`. -/
def hasAddressInPayload (callData : Call) : Bool :=
  match parseRequestBody callData.requestBody with
  | none => false
  | some payload =>
    if jTruthy payload then
      [ "street".data, "city".data, "state".data, "postalCode".data, "country".data,
        "address1".data, "address2".data
      ].any (fun field => hasNestedKey payload field)
    else false

/-- `CheckoutCallAnalyzer.hasTaxInResponse`. -/
def hasTaxInResponse (callData : Call) : Bool :=
  match callData.response with
  | none => false
  | some response =>
    if jTruthy response then
      hasNestedKey response "totalTaxAmount".data || hasNestedKey response "taxes".data ||
        hasNestedKey response "taxBreakdown".data
    else false

/-- `CheckoutCallAnalyzer.hasInventoryInResponse`. -/
def hasInventoryInResponse (callData : Call) : Bool :=
  match callData.response with
  | none => false
  | some response =>
    if jTruthy response then
      hasNestedKey response "inventory".data || hasNestedKey response "stockStatus".data ||
        hasNestedKey response "cartItems".data
    else false

/-- `CheckoutCallAnalyzer.hasOrderInResponse`. -/
def hasOrderInResponse (callData : Call) : Bool :=
  match callData.response with
  | none => false
  | some response =>
    if jTruthy response then
      hasNestedKey response "orderId".data || hasNestedKey response "orderNumber".data ||
        hasNestedKey response "orderStatus".data
    else false

/-- `CheckoutCallAnalyzer.extractPaymentToken`:
`body?.paymentToken || body?.token || body?.paymentMethodId`. -/
def extractPaymentToken (requestBody : Option JVal) : Option JVal :=
  match parseRequestBody requestBody with
  | none => none
  | some body =>
    jsOr (getField body "paymentToken".data)
      (jsOr (getField body "token".data) (getField body "paymentMethodId".data))

/-- The regex `/checkouts\/([^/?]+)/` applied to a URL: the (leftmost,
maximal) run of non-`/`, non-`?` characters that follows the literal
`checkouts/`, when that run is nonempty. -/
def matchCheckoutsId : Str → Option Str
  | [] => none
  | c :: rest =>
    if "checkouts/".data.isPrefixOf (c :: rest) then
      let nm := ((c :: rest).drop 10).takeWhile (fun ch => !(ch == '/') && !(ch == '?'))
      if nm.isEmpty then matchCheckoutsId rest else some nm
    else matchCheckoutsId rest

/-- `CheckoutCallAnalyzer.extractCheckoutId`: URL first, then
`response.checkoutId`, then `response.cartSummary.cartId`, then an explicit
`checkoutId` field of the structured request body (the raw-string regex
fallback of the source applies only to unparseable string bodies, which
this model represents as absent). -/
def extractCheckoutId (callData : Call) : Option JVal :=
  match matchCheckoutsId callData.url with
  | some cid => some (.str cid)
  | none =>
    let respCid := getF callData.response "checkoutId".data
    if optTruthy respCid then respCid
    else
      let cartCid := getF (getF callData.response "cartSummary".data) "cartId".data
      if optTruthy cartCid then cartCid
      else
        match callData.requestBody with
        | some body =>
          if jTruthy body && isObjType body then
            let bodyCid := getField body "checkoutId".data
            if optTruthy bodyCid then bodyCid else none
          else none
        | none => none

/-- `CheckoutCallAnalyzer.determineActiveUpdateType`. -/
def determineActiveUpdateType (callData : Call) : JVal :=
  match parseRequestBody callData.requestBody with
  | none => .str "unknown".data
  | some body =>
    if !(jTruthy body) then .str "unknown".data
    else
      let da := optTruthy (getField body "deliveryAddress".data)
      let dd := optTruthy (getField body "desiredDeliveryDate".data)
      let si := optTruthy (getField body "shippingInstructions".data)
      if da && dd then .str "delivery-address-with-date".data
      else if da then .str "delivery-address".data
      else if dd then .str "delivery-date".data
      else if si then .str "shipping-instructions".data
      else if optTruthy (getField body "deliveryMethodId".data) then .str "delivery-method".data
      else if optTruthy (getField body "contactInfo".data) then .str "contact-info".data
      else if optTruthy (getField body "paymentDetails".data) ||
          optTruthy (getField body "paymentMethodId".data) ||
          optTruthy (getField body "billingAddress".data) then .str "payment-info".data
      else .str "unknown".data

/-- Array index access `o?.[i]`. -/
def jIndex (o : Option JVal) (i : Nat) : Option JVal :=
  match o with
  | some (.arr elems) => elems.get? i
  | _ => none

/-! ## The default call-type registry (`initializeDefaultTypes`) -/

/-- The `payment` call type. -/
def paymentType : CallType where
  name := "payment".data
  urlPatterns := [ "/payments".data, "/payment".data ]
  methods := [ "POST".data, "PUT".data, "PATCH".data ]
  stage := "payment".data
  payloadMatchers :=
    [ fun call => hasPayloadKeys call
        [ "paymentToken".data, "paymentMethodId".data, "creditCard".data, "paymentInstrument".data ],
      fun call => hasResponseKeys call
        [ "paymentMethods".data, "paymentResult".data, "paymentStatus".data ] ]
  extractors :=
    [ ("paymentToken".data, fun call => extractPaymentToken call.requestBody),
      ("paymentErrors".data, fun call => getF call.response "errors".data),
      ("salesforceResultCode".data, fun call => getF call.response "salesforceResultCode".data),
      ("paymentMethodId".data, fun call => getF call.response "paymentMethodId".data) ]
  validators :=
    [ ("isSuccessful".data, fun call =>
        decide (call.status < 400) && !(optTruthy (getF call.response "errors".data))) ]
  priority := 10

/-- The `deliveryMethod` call type. -/
def deliveryMethodType : CallType where
  name := "deliveryMethod".data
  urlPatterns := [ "/delivery-methods".data, "/delivery-groups".data, "/shipping-methods".data, "/checkouts/".data ]
  methods := [ "GET".data, "POST".data, "PUT".data, "PATCH".data ]
  stage := "delivery".data
  payloadMatchers :=
    [ fun call => hasPayloadKeys call
        [ "deliveryMethodId".data, "shippingMethodId".data, "deliveryGroupId".data ],
      fun call => hasResponseKeys call
        [ "deliveryGroups".data, "availableDeliveryMethods".data, "selectedDeliveryMethod".data ],
      fun call => hasUrlPath call "checkouts".data && hasPayloadKeys call [ "deliveryMethodId".data ] ]
  extractors :=
    [ ("deliveryMethodId".data, fun call =>
        let body := parseRequestBody call.requestBody
        jsOr (getF body "deliveryMethodId".data) (getF body "shippingMethodId".data)),
      ("selectedMethod".data, fun call =>
        getF (jIndex (getF (getF call.response "deliveryGroups".data) "items".data) 0)
          "selectedDeliveryMethod".data),
      ("availableMethods".data, fun call =>
        jsOr
          (getF (jIndex (getF (getF call.response "deliveryGroups".data) "items".data) 0)
            "availableDeliveryMethods".data)
          (getF call.response "deliveryMethods".data)) ]
  validators :=
    [ ("isSuccessful".data, fun call =>
        decide (call.status < 400) &&
          (optTruthy (getF call.response "deliveryMethods".data) ||
            optTruthy (getF call.response "deliveryGroups".data))) ]
  priority := 15

/-- The `address` call type. -/
def addressType : CallType where
  name := "address".data
  urlPatterns :=
    [ "/shipping-address".data, "/billing-address".data, "/delivery-address".data,
      "/addresses".data, "/checkouts/".data ]
  methods := [ "GET".data, "POST".data, "PUT".data, "PATCH".data ]
  stage := "address".data
  payloadMatchers :=
    [ fun call => hasPayloadKeys call
        [ "address".data, "deliveryAddress".data, "billingAddress".data, "shippingAddress".data ],
      fun call => hasPayloadKeys call
        [ "street".data, "city".data, "state".data, "postalCode".data, "country".data ],
      fun call => hasResponseKeys call
        [ "deliveryAddress".data, "billingAddress".data, "addresses".data ],
      fun call => hasUrlPath call "checkouts".data && hasAddressInPayload call ]
  extractors :=
    [ ("addressType".data, fun call =>
        let url := lowerStr call.url
        let payload := parseRequestBody call.requestBody
        some (
          if includesStr url "shipping".data || includesStr url "delivery".data ||
              optTruthy (getF payload "deliveryAddress".data) then .str "shipping".data
          else if includesStr url "billing".data ||
              optTruthy (getF payload "billingAddress".data) then .str "billing".data
          else
            match getF (getF payload "address".data) "addressType".data with
            | some v => if jTruthy v then v else .str "unknown".data
            | none => .str "unknown".data)),
      ("addressDetails".data, fun call =>
        jsOr (getF call.response "address".data)
          (jsOr (getF call.response "deliveryAddress".data)
            (getF call.response "billingAddress".data))) ]
  validators :=
    [ ("isSuccessful".data, fun call =>
        decide (call.status < 400) && !(optTruthy (getF call.response "errors".data))) ]
  priority := 12

/-- The `taxes` call type. -/
def taxesType : CallType where
  name := "taxes".data
  urlPatterns := [ "/taxes".data, "/tax-calculation".data, "/calculate-tax".data, "/checkouts/".data ]
  methods := [ "GET".data, "POST".data ]
  stage := "taxes".data
  payloadMatchers :=
    [ fun call => hasPayloadKeys call [ "calculateTax".data, "taxCalculation".data, "taxAmount".data ],
      fun call => hasResponseKeys call [ "taxes".data, "taxBreakdown".data, "totalTaxAmount".data ],
      fun call => hasUrlPath call "checkouts".data && hasTaxInResponse call ]
  extractors :=
    [ ("taxAmount".data, fun call =>
        jsOr (getF (getF call.response "cartSummary".data) "totalTaxAmount".data)
          (getF call.response "totalTax".data)),
      ("taxDetails".data, fun call =>
        jsOr (getF call.response "taxes".data) (getF call.response "taxBreakdown".data)) ]
  validators :=
    [ ("isSuccessful".data, fun call =>
        decide (call.status < 400) && optTruthy (getF call.response "taxes".data)) ]
  priority := 8

/-- The `inventory` call type. -/
def inventoryType : CallType where
  name := "inventory".data
  urlPatterns := [ "/inventory".data, "/cart-items".data, "/stock".data, "/availability".data, "/checkouts/".data ]
  methods := [ "GET".data, "POST".data, "PUT".data ]
  stage := "inventory".data
  payloadMatchers :=
    [ fun call => hasPayloadKeys call [ "productId".data, "sku".data, "quantity".data, "inventoryId".data ],
      fun call => hasResponseKeys call
        [ "inventory".data, "stockStatus".data, "availableQuantity".data, "cartItems".data ],
      fun call => hasUrlPath call "checkouts".data && hasInventoryInResponse call ]
  extractors :=
    [ ("productCount".data, fun call => getF call.response "totalProductCount".data),
      ("inventoryLevel".data, fun call => getF call.response "inventory".data),
      ("stockStatus".data, fun call => getF call.response "stockStatus".data) ]
  validators :=
    [ ("isSuccessful".data, fun call => decide (call.status < 400)) ]
  priority := 8

/-- The `orderPlacement` call type. -/
def orderPlacementType : CallType where
  name := "orderPlacement".data
  urlPatterns := [ "/place-order".data, "/submit-order".data, "/finalize".data, "/checkouts/".data ]
  methods := [ "POST".data, "PUT".data ]
  stage := "order".data
  payloadMatchers :=
    [ fun call => hasPayloadKeys call [ "placeOrder".data, "submitOrder".data, "finalizeOrder".data ],
      fun call => hasResponseKeys call
        [ "orderId".data, "orderNumber".data, "orderStatus".data, "orderPlaced".data ],
      fun call => hasUrlPath call "checkouts".data && call.method == "POST".data &&
        hasOrderInResponse call ]
  extractors :=
    [ ("orderId".data, fun call =>
        jsOr (getF call.response "orderId".data) (getF call.response "id".data)),
      ("orderNumber".data, fun call => getF call.response "orderNumber".data),
      ("orderStatus".data, fun call =>
        jsOr (getF call.response "status".data) (getF call.response "orderStatus".data)) ]
  validators :=
    [ ("isSuccessful".data, fun call =>
        decide (call.status < 400) &&
          (optTruthy (getF call.response "orderId".data) ||
            optTruthy (getF call.response "orderNumber".data))) ]
  priority := 20

/-- The `activeCheckout` call type. -/
def activeCheckoutType : CallType where
  name := "activeCheckout".data
  urlPatterns := [ "/active".data ]
  methods := [ "PATCH".data, "PUT".data ]
  stage := "checkout-update".data
  payloadMatchers := [ fun call => hasUrlPath call "/active".data ]
  extractors :=
    [ ("updateType".data, fun call => some (determineActiveUpdateType call)),
      ("deliveryAddressId".data, fun call =>
        getF (getF (parseRequestBody call.requestBody) "deliveryAddress".data) "id".data),
      ("desiredDeliveryDate".data, fun call =>
        getF (parseRequestBody call.requestBody) "desiredDeliveryDate".data),
      ("deliveryMethodId".data, fun call =>
        getF (parseRequestBody call.requestBody) "deliveryMethodId".data),
      ("shippingInstructions".data, fun call =>
        getF (parseRequestBody call.requestBody) "shippingInstructions".data),
      ("contactInfo".data, fun call =>
        getF (parseRequestBody call.requestBody) "contactInfo".data) ]
  validators :=
    [ ("isSuccessful".data, fun call =>
        decide (call.status < 400) && !(optTruthy (getF call.response "errors".data))) ]
  priority := 30

/-- `CheckoutCallAnalyzer.matchesSpecificType`: does the call match any of
the specific (non-`checkout`) call types. -/
def matchesSpecificType (call : Call) : Bool :=
  [ paymentType, deliveryMethodType, addressType, taxesType, inventoryType,
    orderPlacementType, activeCheckoutType
  ].any (fun t => matchesCallType call t)

/-- The `checkout` call type (its third payload matcher catches generic
checkout calls that match no specific type). -/
def checkoutType : CallType where
  name := "checkout".data
  urlPatterns := [ "/checkouts/".data, "/checkout-status".data, "/cart-summary".data ]
  methods := [ "GET".data, "POST".data, "PUT".data ]
  stage := "checkout".data
  payloadMatchers :=
    [ fun call => hasPayloadKeys call [ "checkoutId".data, "cartId".data, "checkoutStep".data ],
      fun call => hasResponseKeys call
        [ "checkoutStatus".data, "cartSummary".data, "checkoutProgress".data ],
      fun call => hasUrlPath call "checkouts".data && !(matchesSpecificType call) ]
  extractors :=
    [ ("checkoutId".data, fun call => extractCheckoutId call),
      ("checkoutStatus".data, fun call =>
        jsOr (getF call.response "status".data) (getF call.response "checkoutStatus".data)),
      ("cartSummary".data, fun call => getF call.response "cartSummary".data) ]
  validators :=
    [ ("isSuccessful".data, fun call => decide (call.status < 400)) ]
  priority := 5

/-- The default registry in registration order (`initializeDefaultTypes`
registers: payment, deliveryMethod, address, taxes, inventory, checkout,
orderPlacement, activeCheckout). -/
def defaultCallTypes : List CallType :=
  [ paymentType, deliveryMethodType, addressType, taxesType, inventoryType,
    checkoutType, orderPlacementType, activeCheckoutType ]

/-! ## The diagnostic-log parser (`SalesforceLogger.parseLogContent`,
src/unnamed/part_000) -/

/-- One parsed log entry (`{ timestamp, message/event/callout/call, type }`
in the source; all entry shapes share this form). -/
structure LogEntry where
  timestamp : Option Str
  message : Str
  entryType : Str

/-- The performance summary (`parsed.performance`). -/
structure Perf where
  totalTime : Nat := 0
  cpuTime : Nat := 0
  heapSize : Nat := 0
  soqlQueries : Nat := 0
  dmlStatements : Nat := 0

/-- The structured result of `parseLogContent`. -/
structure ParsedLog where
  errors : List LogEntry := []
  warnings : List LogEntry := []
  checkoutEvents : List LogEntry := []
  apiCalls : List LogEntry := []
  paymentEvents : List LogEntry := []
  cartEvents : List LogEntry := []
  webserviceCalls : List LogEntry := []
  apexClass : Option Str := none
  userInfo : Option Str := none
  performance : Perf := {}

/-- Decimal value of a digit run (`Number.parseInt`). -/
def digitsVal (ds : Str) : Nat :=
  ds.foldl (fun acc c => 10 * acc + (c.toNat - '0'.toNat)) 0

/-- The regex `/(\d+)/`: the first (leftmost, maximal) digit run of the
line, as a number. -/
def firstNat (line : Str) : Option Nat :=
  let digits := (line.dropWhile (fun c => !c.isDigit)).takeWhile Char.isDigit
  if digits.isEmpty then none else some (digitsVal digits)

/-- The regex `/(\d{2}:\d{2}:\d{2}\.\d{3})/` tested at the start of the
string. -/
def matchTimestampHere : Str → Option Str
  | a :: b :: c :: d :: e :: f :: g :: h :: i :: j :: k :: l :: _ =>
    if a.isDigit && b.isDigit && (c == ':') && d.isDigit && e.isDigit && (f == ':') &&
        g.isDigit && h.isDigit && (i == '.') && j.isDigit && k.isDigit && l.isDigit then
      some [a, b, c, d, e, f, g, h, i, j, k, l]
    else none
  | _ => none

/-- `SalesforceLogger.extractTimestamp`: the leftmost `HH:MM:SS.mmm`
pattern of the line, if any. -/
def extractTimestamp : Str → Option Str
  | [] => none
  | c :: rest =>
    match matchTimestampHere (c :: rest) with
    | some ts => some ts
    | none => extractTimestamp rest

/-- The regex `/apex:\/\/([^/]+)\//`: the (leftmost) nonempty run of
non-`/` characters between the literal `apex://` and a closing `/`. -/
def matchApexName : Str → Option Str
  | [] => none
  | c :: rest =>
    if "apex://".data.isPrefixOf (c :: rest) then
      let after := (c :: rest).drop 7
      let nm := after.takeWhile (fun ch => !(ch == '/'))
      if !nm.isEmpty && !(after.drop nm.length).isEmpty then some nm
      else matchApexName rest
    else matchApexName rest

/-- The regex `/\|([^|]+@[^|]+)\|/`: the (leftmost) run between two `|`
delimiters that contains an `@` with at least one character on each side
within the run. -/
def matchUserEmail : Str → Option Str
  | [] => none
  | c :: rest =>
    if c == '|' then
      let run := rest.takeWhile (fun ch => !(ch == '|'))
      if ((run.drop 1).dropLast).contains '@' && decide (run.length < rest.length) then
        some run
      else matchUserEmail rest
    else matchUserEmail rest

/-- The Apex class name a line contributes
(`if (line.includes("[EXTERNAL]|apex://")) { line.match(/apex:\/\/([^/]+)\//) ... }`). -/
def apexOfLine (line : Str) : Option Str :=
  if includesStr line "[EXTERNAL]|apex://".data then matchApexName line else none

/-- The user identifier a line contributes
(`if (line.includes("|USER_INFO|")) { line.match(/\|([^|]+@[^|]+)\|/) ... }`). -/
def userOfLine (line : Str) : Option Str :=
  if includesStr line "|USER_INFO|".data then matchUserEmail line else none

/-- A line's entry for one of the event/error sequences. -/
def mkEntry (line : Str) (ty : Str) : LogEntry where
  timestamp := extractTimestamp line
  message := trimStr line
  entryType := ty

/-- Error-pattern test:
`line.includes("|FATAL_ERROR|") || line.includes("|ERROR|") || line.includes("|EXCEPTION_THROWN|")`. -/
def isErrorLine (line : Str) : Bool :=
  includesStr line "|FATAL_ERROR|".data || includesStr line "|ERROR|".data ||
    includesStr line "|EXCEPTION_THROWN|".data

/-- One iteration of the `lines.forEach` body of `parseLogContent`: each
field receives its updated value (later apex/user matches overwrite earlier
ones; entries are appended in line order). -/
def processLine (p : ParsedLog) (line : Str) : ParsedLog where
  errors := p.errors ++ (if isErrorLine line then [mkEntry line "error".data] else [])
  warnings := p.warnings ++
    (if !isErrorLine line && includesStr line "|WARN|".data then
      [mkEntry line "warning".data] else [])
  checkoutEvents := p.checkoutEvents ++
    (if includesStr (lowerStr line) "checkout".data then [mkEntry line "checkout".data] else [])
  apiCalls := p.apiCalls ++
    (if includesStr line "/webruntime/".data || includesStr line "/commerce/".data ||
        includesStr line "/services/data/".data then [mkEntry line "api".data] else [])
  paymentEvents := p.paymentEvents ++
    (if includesStr (lowerStr line) "payment".data then [mkEntry line "payment".data] else [])
  cartEvents := p.cartEvents ++
    (if includesStr (lowerStr line) "cart".data then [mkEntry line "cart".data] else [])
  webserviceCalls := p.webserviceCalls ++
    (if includesStr line "|CALLOUT_REQUEST|".data || includesStr line "|CALLOUT_RESPONSE|".data then
      [mkEntry line "callout".data] else [])
  apexClass := Option.or (apexOfLine line) p.apexClass
  userInfo := Option.or (userOfLine line) p.userInfo
  performance :=
    { totalTime := p.performance.totalTime
      soqlQueries :=
        match (if includesStr line "Number of SOQL queries:".data then firstNat line else none) with
        | some n => n
        | none => p.performance.soqlQueries
      dmlStatements :=
        match (if includesStr line "Number of DML statements:".data then firstNat line else none) with
        | some n => n
        | none => p.performance.dmlStatements
      cpuTime :=
        match (if includesStr line "Maximum CPU time:".data then firstNat line else none) with
        | some n => n
        | none => p.performance.cpuTime
      heapSize :=
        match (if includesStr line "Maximum heap size:".data then firstNat line else none) with
        | some n => n
        | none => p.performance.heapSize }

/-- `SalesforceLogger.parseLogContent`: `null` on an empty body, otherwise
the line-by-line accumulation over `logBody.split("\n")`. -/
def parseLogContent (logBody : Str) : Option ParsedLog :=
  if logBody.isEmpty then none
  else some ((logBody.splitOn '\n').foldl processLine {})

/-! ## The correlation engine (`CorrelationEngine`, src/unnamed/part_001) -/

/-- A retrieved diagnostic record as the correlation engine sees it: the
`ApexLog` metadata used for scoring (`StartTime`, `Operation`, `Request`),
the fetched raw `body`, and the `parsed` structure attached by
`parseLogContent`. -/
structure SfLog where
  StartTime : Int
  Operation : Str := []
  Request : Str := []
  body : Str := []
  parsed : Option ParsedLog := none

/-- `Math.abs(callTime - logTime)` in milliseconds. -/
def timeDiffMs (networkCall : Call) (salesforceLog : SfLog) : Nat :=
  (networkCall.timestamp - salesforceLog.StartTime).natAbs

/-- Factor 1, time proximity (0–25 points):
`Math.max(0, 25 - timeDiff / 1000 / 60 / 2)`. -/
def timeProximityScore (timeDiff : Nat) : ℚ :=
  max 0 (25 - (timeDiff : ℚ) / 1000 / 60 / 2)

/-- Factor 2, `CorrelationEngine.calculateOperationMatch` (0–20 points). -/
def calculateOperationMatch (networkCall : Call) (salesforceLog : SfLog) : ℚ :=
  let url := lowerStr networkCall.url
  let operation := lowerStr salesforceLog.Operation
  let request := lowerStr salesforceLog.Request
  let score : ℚ :=
    if includesStr url "payment".data &&
        (includesStr operation "payment".data || includesStr request "payment".data) then 20
    else if includesStr url "checkout".data &&
        (includesStr operation "checkout".data || includesStr request "checkout".data) then 18
    else if includesStr url "cart".data &&
        (includesStr operation "cart".data || includesStr request "cart".data) then 15
    else if includesStr url "inventory".data &&
        (includesStr operation "inventory".data || includesStr request "inventory".data) then 15
    else if includesStr url "tax".data &&
        (includesStr operation "tax".data || includesStr request "tax".data) then 12
    else 0
  min score 20

/-- `[...new Set(keywords)]` — deduplication keeping first occurrences. -/
def jsSetDedup (l : List Str) : List Str :=
  l.foldl (fun acc x => if x ∈ acc then acc else acc ++ [x]) []

/-- `CorrelationEngine.extractKeywords`, applied as in
`calculateContentMatch`: URL segments longer than 3 characters of the
lowercased URL, plus top-level string values (longer than 3 characters) of
the request body, lowercased (the source stringifies the body, lowercases
the text, and re-parses it, which lowercases exactly the keys and string
values). -/
def extractKeywords (networkCall : Call) : List Str :=
  let url := lowerStr networkCall.url
  let urlParts := (url.splitOn '/').filter (fun part => part.length > 3)
  let bodyVals : List Str :=
    match networkCall.requestBody with
    | some (.obj fields) =>
      fields.filterMap (fun p =>
        match p.2 with
        | .str s => if s.length > 3 then some (lowerStr s) else none
        | _ => none)
    | some (.arr elems) =>
      elems.filterMap (fun v =>
        match v with
        | .str s => if s.length > 3 then some (lowerStr s) else none
        | _ => none)
    | _ => []
  jsSetDedup (urlParts ++ bodyVals)

/-- Factor 3, `CorrelationEngine.calculateContentMatch` (0–20 points):
3 points per keyword found in the lowercased log body. -/
def calculateContentMatch (networkCall : Call) (salesforceLog : SfLog) : ℚ :=
  let logBody := lowerStr salesforceLog.body
  let keywords := extractKeywords networkCall
  let score : ℚ := 3 * ((keywords.countP (fun k => includesStr logBody k) : ℕ) : ℚ)
  min score 20

/-- Inner loop of the Levenshtein matrix fill (row character `c2`,
remaining column characters, the diagonal value `d`, the rest of the
previous row, and the value just computed to the left):
`matrix[i][j] = matrix[i-1][j-1]` on equal characters, else
`min(matrix[i-1][j-1] + 1, matrix[i][j-1] + 1, matrix[i-1][j] + 1)`. -/
def levRowAux (c2 : Char) : List Char → Nat → List Nat → Nat → List Nat
  | [], _, _, _ => []
  | _ :: _, _, [], _ => []
  | c :: cs, d, up :: rest, left =>
    let cur := if c = c2 then d else Nat.min (d + 1) (Nat.min (left + 1) (up + 1))
    cur :: levRowAux c2 cs up rest cur

/-- One full row of the Levenshtein matrix (`matrix[i] = [i]` followed by
the inner loop). -/
def levRowStart (c2 : Char) (s1 : List Char) (prev : List Nat) : List Nat :=
  match prev with
  | [] => []
  | d :: rest => (d + 1) :: levRowAux c2 s1 d rest (d + 1)

/-- `CorrelationEngine.levenshteinDistance`: dynamic programming over a
matrix whose row 0 is `0..str1.length` and whose rows are indexed by the
characters of `str2`; the result is `matrix[str2.length][str1.length]`. -/
def levenshteinDistance (str1 str2 : Str) : Nat :=
  let row0 := List.range (str1.length + 1)
  let finalRow := str2.foldl (fun prev c2 => levRowStart c2 str1 prev) row0
  finalRow.getLast?.getD 0

/-- `CorrelationEngine.calculateStringSimilarity`: 0 when either string is
falsy (in particular when either is empty), otherwise
`(longer.length - editDistance) / longer.length`. -/
def calculateStringSimilarity (str1 str2 : Str) : ℚ :=
  if str1.isEmpty || str2.isEmpty then 0
  else
    let longer := if str1.length > str2.length then str1 else str2
    let shorter := if str1.length > str2.length then str2 else str1
    if longer.length = 0 then 1
    else ((longer.length : ℚ) - (levenshteinDistance longer shorter : ℚ)) / (longer.length : ℚ)

/-- Decimal representation of an integer. -/
def intToStr (n : Int) : Str :=
  if n < 0 then '-' :: Nat.toDigits 10 n.natAbs else Nat.toDigits 10 n.natAbs

mutual
/-- JavaScript string coercion of a value (as used by
`logBody.includes(value)`). -/
def jToString : JVal → Str
  | .null => "null".data
  | .bool true => "true".data
  | .bool false => "false".data
  | .num n => intToStr n
  | .str s => s
  | .arr es => jToStringElems es
  | .obj _ => "[object Object]".data

/-- Array coercion: elements joined with commas. -/
def jToStringElems : List JVal → Str
  | [] => []
  | [v] => jToString v
  | v :: rest => jToString v ++ ",".data ++ jToStringElems rest
end

/-- `networkCall.response?.errors || []` as the list of error objects. -/
def responseErrors (response : Option JVal) : List JVal :=
  match getF response "errors".data with
  | some (.arr es) => es
  | _ => []

/-- `netErr.message || netErr.title || ""` (string coercion of a truthy
non-string value). -/
def errMessage (e : JVal) : Str :=
  match jsOr (getField e "message".data) (getField e "title".data) with
  | some v => if jTruthy v then jToString v else []
  | none => []

/-- Factor 4, `CorrelationEngine.calculateErrorMatch` (0–15 points). -/
def calculateErrorMatch (networkCall : Call) (salesforceLog : SfLog) : ℚ :=
  let parsedErrors := match salesforceLog.parsed with | some p => p.errors | none => []
  if networkCall.status < 400 then 0
  else if parsedErrors.isEmpty then 0
  else
    let networkErrors := responseErrors networkCall.response
    let sfErrors := parsedErrors
    let score : ℚ :=
      if !networkErrors.isEmpty && !sfErrors.isEmpty then
        10 + 5 * (((networkErrors.product sfErrors).countP
          (fun pr => decide ((3 : ℚ)/10 < calculateStringSimilarity (errMessage pr.1) pr.2.message)) : ℕ) : ℚ)
      else 0
    min score 15

/-- Factor 5, `CorrelationEngine.calculateIdMatch` (0–20 points): checkout
id (+15), webstore id (+10) and payment token (+12) found verbatim in the
raw log body, capped at 20. -/
def calculateIdMatch (networkCall : Call) (salesforceLog : SfLog) : ℚ :=
  let logBody := salesforceLog.body
  let chk : ℚ :=
    match networkCall.checkoutId with
    | some id => if !id.isEmpty && includesStr logBody id then 15 else 0
    | none => 0
  let web : ℚ :=
    match networkCall.webstoreId with
    | some id => if !id.isEmpty && includesStr logBody id then 10 else 0
    | none => 0
  let tok : ℚ :=
    if optTruthy networkCall.requestBody then
      match extractPaymentToken networkCall.requestBody with
      | some v => if jTruthy v && includesStr logBody (jToString v) then 12 else 0
      | none => 0
    else 0
  min (chk + web + tok) 20

/-- `CorrelationEngine.determineCorrelationType`: fixed precedence
error > payment > checkout > inventory > shipping/delivery > tax > general. -/
def determineCorrelationType (networkCall : Call) (salesforceLog : SfLog) : Str :=
  let url := lowerStr networkCall.url
  let hasErrors := decide (400 ≤ networkCall.status) ||
    (match salesforceLog.parsed with | some p => !p.errors.isEmpty | none => false)
  if hasErrors then "error".data
  else if includesStr url "payment".data then "payment".data
  else if includesStr url "checkout".data then "checkout".data
  else if includesStr url "inventory".data then "inventory".data
  else if includesStr url "shipping".data || includesStr url "delivery".data then "shipping".data
  else if includesStr url "tax".data then "tax".data
  else "general".data

/-- The result record of `calculateCorrelation` (the `factors` and
`reasoning` presentation strings are not part of any verified property and
are omitted). -/
structure CorrCalc where
  confidence : ℚ
  score : ℚ
  maxScore : ℚ
  ctype : Str

/-- `CorrelationEngine.calculateCorrelation`: sum the five factor scores
and normalise by `maxScore = 100`. -/
def calculateCorrelation (networkCall : Call) (salesforceLog : SfLog) : CorrCalc :=
  let timeDiff := timeDiffMs networkCall salesforceLog
  let timeScore := timeProximityScore timeDiff
  let operationScore := calculateOperationMatch networkCall salesforceLog
  let contentScore := calculateContentMatch networkCall salesforceLog
  let errorScore := calculateErrorMatch networkCall salesforceLog
  let idScore := calculateIdMatch networkCall salesforceLog
  let score := timeScore + operationScore + contentScore + errorScore + idScore
  { confidence := min (score / 100) 1
    score := score
    maxScore := 100
    ctype := determineCorrelationType networkCall salesforceLog }

/-- An emitted Correlation (`{ networkCall, salesforceLog, ...correlation,
timeDifference }`). -/
structure Correlation where
  networkCall : Call
  salesforceLog : SfLog
  confidence : ℚ
  score : ℚ
  maxScore : ℚ
  ctype : Str
  timeDifference : Nat

/-- The constructor default `this.timeWindow = 5 * 60 * 1000`. -/
def defaultTimeWindow : Nat := 5 * 60 * 1000

/-- The constructor default `this.confidenceThreshold = 0.6`. -/
def defaultConfidenceThreshold : ℚ := 3 / 5

/-- `CorrelationEngine.correlateAll`: for every call/log pair within the
time window whose confidence reaches the threshold, emit a Correlation;
sort the result by descending confidence with JavaScript's stable sort
(`correlations.sort((a, b) => b.confidence - a.confidence)`). -/
def correlateAll (networkCalls : List Call) (salesforceLogs : List SfLog)
    (timeWindow : Nat) (confidenceThreshold : ℚ) : List Correlation :=
  let correlations := networkCalls.flatMap (fun call =>
    salesforceLogs.filterMap (fun log =>
      let timeDiff := timeDiffMs call log
      if timeDiff ≤ timeWindow then
        let correlation := calculateCorrelation call log
        if confidenceThreshold ≤ correlation.confidence then
          some { networkCall := call, salesforceLog := log,
                 confidence := correlation.confidence, score := correlation.score,
                 maxScore := correlation.maxScore, ctype := correlation.ctype,
                 timeDifference := timeDiff }
        else none
      else none))
  List.insertionSort (fun a b => b.confidence ≤ a.confidence) correlations

/-! ## Demonstration inputs and reference definitions

Concrete interactions, diagnostics and rules used by the witnesses and
counterexamples below, and the textbook recursive Levenshtein distance
`levR` against which the matrix algorithm is verified. -/

/-- A call type as `addCallType` stores it from a config carrying only
`urlPatterns`, `methods` and `priority` (`stage` defaults to the name;
matchers, extractors and validators default to empty). -/
def plainCallType (nm : String) (urlPats : List String) (methodList : List String)
    (prio : Int) : CallType where
  name := nm.data
  urlPatterns := urlPats.map String.data
  methods := methodList.map String.data
  stage := nm.data
  payloadMatchers := []
  extractors := []
  validators := []
  priority := prio

/-- A demonstration interaction. -/
def cxCall : Call where
  url := "/x".data
  method := "GET".data
  status := 200
  timestamp := 0

/-- Demonstration rules of priorities 10, 30 and 50, all matching
`cxCall` by URL and method. -/
def cxRule10 : CallType := plainCallType "low" [ "/x" ] [ "GET" ] 10

/-- Priority-30 demonstration rule. -/
def cxRule30 : CallType := plainCallType "mid" [ "/x" ] [ "GET" ] 30

/-- Priority-50 demonstration rule. -/
def cxRule50 : CallType := plainCallType "high" [ "/x" ] [ "GET" ] 50

/-- A rule with URL patterns and methods but no payload predicates, as
`addCallType("demo", { urlPatterns: ["/payments"], methods: ["GET"] })`
stores it. -/
def c2Rule : CallType := plainCallType "demo" [ "/payments" ] [ "GET" ] 0

/-- An interaction whose URL matches none of `c2Rule`'s patterns but whose
method does. -/
def c2Call : Call where
  url := "/other".data
  method := "GET".data
  status := 200
  timestamp := 0

/-- A payload chain of `n + 1` nested objects whose innermost object holds
the key `needle`. -/
def nestChain : Nat → JVal
  | 0 => .obj [ ("needle".data, JVal.null) ]
  | n + 1 => .obj [ ("wrap".data, nestChain n) ]

/-- A successful interaction whose URL yields seven keywords longer than
3 characters, carrying checkout and webstore identifiers. -/
def c5call : Call where
  url := "/aaaa/bbbb/cccc/dddd/eeee/ffff/gggg".data
  method := "GET".data
  status := 200
  timestamp := 1000000
  checkoutId := some "qqqq1".data
  webstoreId := some "rrrr1".data

/-- A diagnostic 10 s after `c5call` whose body contains six of the seven
keywords and both identifiers. -/
def c5log1 : SfLog where
  StartTime := 990000
  body := "aaaa bbbb cccc dddd eeee ffff qqqq1 rrrr1".data

/-- A diagnostic 250 s after `c5call` whose body contains all seven
keywords (content score capped at 20) and both identifiers — engineered so
that both pairs score exactly the same confidence. -/
def c5log2 : SfLog where
  StartTime := 750000
  body := "aaaa bbbb cccc dddd eeee ffff gggg qqqq1 rrrr1".data

/-- The correlator's output on `[c5call] × [c5log2, c5log1]` at the
default window and threshold. -/
def c5out : List Correlation :=
  correlateAll [ c5call ] [ c5log2, c5log1 ] defaultTimeWindow defaultConfidenceThreshold

/-- The emitted correlation of the far pair (time difference 250 000 ms). -/
def c5corrFar : Correlation where
  networkCall := c5call
  salesforceLog := c5log2
  confidence := 151 / 240
  score := 755 / 12
  maxScore := 100
  ctype := "general".data
  timeDifference := 250000

/-- The emitted correlation of the near pair (time difference 10 000 ms). -/
def c5corrNear : Correlation where
  networkCall := c5call
  salesforceLog := c5log1
  confidence := 151 / 240
  score := 755 / 12
  maxScore := 100
  ctype := "general".data
  timeDifference := 10000

/-- A log body with two apex-reference lines and two user-info lines. -/
def c7body : Str :=
  ("x [EXTERNAL]|apex://FirstClass/method\n" ++
   "x [EXTERNAL]|apex://SecondClass/method\n" ++
   "a|USER_INFO|first@x|z\n" ++
   "a|USER_INFO|second@y|z").data

/-- The parsed structure of `c7body`. -/
def c7parsed : ParsedLog := (c7body.splitOn '\n').foldl processLine {}

/-- The example interaction: `POST /checkouts/ABC123456789012/payments`,
status 400, response `{ errors: [{ message: "Invalid payment method" }] }`. -/
def c8Call : Call where
  url := "/checkouts/ABC123456789012/payments".data
  method := "POST".data
  status := 400
  timestamp := 1000000
  response := some (.obj
    [ ("errors".data, .arr [ .obj [ ("message".data, .str "Invalid payment method".data) ] ]) ])

/-- The example interaction as the correlator receives it, carrying the
checkout identifier the analyzer extracted from its URL. -/
def c8AnalyzedCall : Call := { c8Call with checkoutId := some "ABC123456789012".data }

/-- The example diagnostic: raw content `"Invalid payment method"`,
starting 5 seconds after the interaction, parsed by `parseLogContent`. -/
def c8Log : SfLog where
  StartTime := 1005000
  body := "Invalid payment method".data
  parsed := parseLogContent "Invalid payment method".data

/-- Textbook recursive Levenshtein distance. -/
def levR : List Char → List Char → Nat
  | [], ys => ys.length
  | x :: xs, [] => (x :: xs).length
  | x :: xs, y :: ys =>
    if x = y then levR xs ys
    else Nat.min (levR xs ys + 1) (Nat.min (levR (x :: xs) ys + 1) (levR xs (y :: ys) + 1))
termination_by xs ys => xs.length + ys.length

/-- The intended values of a partially built matrix row: column `j`
(counted from the processed reversed prefix `v` of the column string)
holds `levR u (reversed prefix of length j)`. -/
def specCols (u : List Char) : List Char → List Char → List Nat
  | _, [] => []
  | v, c :: cs => levR u (c :: v) :: specCols u (c :: v) cs

/-- The row of `levR` values for the processed reversed row-prefix `u`. -/
def rowFull (u s1 : List Char) : List Nat := levR u [] :: specCols u [] s1

/-! ## Sorting lemmas: JavaScript's stable descending sort -/

/-- The head of a stable descending sort by a key is the unique element of
maximal key, when there is one. -/
theorem insertionSort_head_max {α β : Type} [LinearOrder β] (key : α → β) (l : List α) (x : α)
    (hx : x ∈ l) (hmax : ∀ y ∈ l, y ≠ x → key y < key x) :
    (List.insertionSort (fun a b => key b ≤ key a) l).head? = some x := by
  letI : IsTotal α (fun a b : α => key b ≤ key a) := ⟨fun a b => le_total (key b) (key a)⟩
  letI : IsTrans α (fun a b : α => key b ≤ key a) := ⟨fun a b c hab hbc => le_trans hbc hab⟩
  have hperm := List.perm_insertionSort (fun a b : α => key b ≤ key a) l
  have hs := List.sorted_insertionSort (fun a b : α => key b ≤ key a) l
  have hxl : x ∈ List.insertionSort (fun a b : α => key b ≤ key a) l :=
    (List.Perm.mem_iff hperm).mpr hx
  cases hL : List.insertionSort (fun a b : α => key b ≤ key a) l with
  | nil => rw [hL] at hxl; cases hxl
  | cons h t =>
    rw [hL] at hxl hs hperm
    rw [List.head?_cons]
    rcases List.mem_cons.mp hxl with hxh | hxt
    · rw [hxh]
    · have hrx : key x ≤ key h := List.rel_of_sorted_cons hs x hxt
      have hh : h ∈ l := (List.Perm.mem_iff hperm).mp (List.mem_cons_self h t)
      by_cases heq : h = x
      · rw [heq]
      · exact absurd hrx (not_le.mpr (hmax h hh heq))

/-- `analyzeCall` applies exactly the head of the priority-sorted matched
list. -/
theorem analyzeCall_eq_of_head (types : List CallType) (call : Call) (x : CallType)
    (hhead : (List.insertionSort (fun a b => CallType.priority b ≤ CallType.priority a)
      (types.filter (fun t => matchesCallType call t))).head? = some x) :
    analyzeCall types call = applyPrimary x call := by
  have hdef : analyzeCall types call =
      match (List.insertionSort (fun a b : CallType => b.priority ≤ a.priority)
        (types.filter (fun t => matchesCallType call t))).head? with
      | none => {}
      | some primary => applyPrimary primary call := rfl
  rw [hdef, hhead]

/-! ## Claim C1 — priority resolution -/

/-- C1, counterexample: in the registry `[cxRule10, cxRule30, cxRule50]`
at least two rules match `cxCall`, one with priority 10 and one with
priority 30, yet classification does not assign the priority-30 rule's
stage label (the priority-50 rule wins). -/
theorem c1_counterexample :
    matchesCallType cxCall cxRule10 = true ∧ matchesCallType cxCall cxRule30 = true ∧
      cxRule10.priority = 10 ∧ cxRule30.priority = 30 ∧
      (analyzeCall [ cxRule10, cxRule30, cxRule50 ] cxCall).checkoutStage ≠ some cxRule30.stage := by
  refine ⟨?_, ?_, rfl, rfl, ?_⟩ <;> with_unfolding_all decide

/-- C1 (amended): for every interaction and registry in which a rule of
priority 10 and a rule of priority 30 both match, and every other matching
rule has priority strictly below 30, classification assigns the
priority-30 rule's name and stage label, regardless of the order in which
the rules were registered. -/
theorem c1_priority_resolution (types : List CallType) (call : Call) (r10 r30 : CallType)
    (h10 : r10 ∈ types.filter (fun t => matchesCallType call t)) (h10p : r10.priority = 10)
    (h30 : r30 ∈ types.filter (fun t => matchesCallType call t)) (h30p : r30.priority = 30)
    (hmax : ∀ s ∈ types.filter (fun t => matchesCallType call t), s ≠ r30 → s.priority < 30) :
    (analyzeCall types call).callType = some r30.name ∧
      (analyzeCall types call).checkoutStage = some r30.stage := by
  have hhead := insertionSort_head_max CallType.priority
    (types.filter (fun t => matchesCallType call t)) r30 h30
    (fun y hy hne => by rw [h30p]; exact hmax y hy hne)
  rw [analyzeCall_eq_of_head types call r30 hhead]
  exact ⟨rfl, rfl⟩

/-- C1, witness: the amended theorem applied to the two-rule registry
`[cxRule10, cxRule30]`, in which both rules match `cxCall`; the winner is
the priority-30 rule's stage, and the same holds with the registration
order reversed. -/
theorem c1_witness :
    (cxRule10 ∈ List.filter (fun t => matchesCallType cxCall t) [ cxRule10, cxRule30 ]) ∧
      (cxRule30 ∈ List.filter (fun t => matchesCallType cxCall t) [ cxRule10, cxRule30 ]) ∧
      (analyzeCall [ cxRule10, cxRule30 ] cxCall).checkoutStage = some cxRule30.stage ∧
      (analyzeCall [ cxRule30, cxRule10 ] cxCall).checkoutStage = some cxRule30.stage := by
  have hfil : List.filter (fun t => matchesCallType cxCall t) [ cxRule10, cxRule30 ] =
      [ cxRule10, cxRule30 ] := by with_unfolding_all rfl
  have hfil' : List.filter (fun t => matchesCallType cxCall t) [ cxRule30, cxRule10 ] =
      [ cxRule30, cxRule10 ] := by with_unfolding_all rfl
  have h10 : cxRule10 ∈ List.filter (fun t => matchesCallType cxCall t) [ cxRule10, cxRule30 ] := by
    rw [hfil]; exact List.mem_cons_self _ _
  have h30 : cxRule30 ∈ List.filter (fun t => matchesCallType cxCall t) [ cxRule10, cxRule30 ] := by
    rw [hfil]; exact List.mem_cons_of_mem _ (List.mem_cons_self _ _)
  have hmax : ∀ s ∈ List.filter (fun t => matchesCallType cxCall t) [ cxRule10, cxRule30 ],
      s ≠ cxRule30 → s.priority < 30 := by
    intro s hs hne
    rw [hfil] at hs
    rcases List.mem_cons.mp hs with h | h
    · rw [h]; with_unfolding_all decide
    · rcases List.mem_cons.mp h with h' | h'
      · exact absurd h' hne
      · cases h'
  have hmax' : ∀ s ∈ List.filter (fun t => matchesCallType cxCall t) [ cxRule30, cxRule10 ],
      s ≠ cxRule30 → s.priority < 30 := by
    intro s hs hne
    rw [hfil'] at hs
    rcases List.mem_cons.mp hs with h | h
    · exact absurd h hne
    · rcases List.mem_cons.mp h with h' | h'
      · rw [h']; with_unfolding_all decide
      · cases h'
  have h10' : cxRule10 ∈ List.filter (fun t => matchesCallType cxCall t) [ cxRule30, cxRule10 ] := by
    rw [hfil']; exact List.mem_cons_of_mem _ (List.mem_cons_self _ _)
  have h30' : cxRule30 ∈ List.filter (fun t => matchesCallType cxCall t) [ cxRule30, cxRule10 ] := by
    rw [hfil']; exact List.mem_cons_self _ _
  exact ⟨h10, h30,
    (c1_priority_resolution [ cxRule10, cxRule30 ] cxCall cxRule10 cxRule30 h10 rfl h30 rfl hmax).2,
    (c1_priority_resolution [ cxRule30, cxRule10 ] cxCall cxRule10 cxRule30 h10' rfl h30' rfl hmax').2⟩

/-! ## Claim C2 — the matching formula -/

/-- C2: `c2Rule` declares no payload predicates and its URL patterns do
not match `c2Call`, yet `matchesCallType` accepts the pair — the
always-truthy `typeConfig.payloadMatchers` array makes the second disjunct
collapse to `payloadMatches && methodMatches`, so a rule without payload
predicates matches on method alone, contrary to the claim (and to the
code's own comment "For URL-based matching, require both URL and method
match"). -/
theorem c2_code_bug :
    c2Rule.payloadMatchers.length = 0 ∧
      c2Rule.urlPatterns.any
        (fun pattern => includesStr (lowerStr c2Call.url) (lowerStr pattern)) = false ∧
      c2Rule.methods.contains (upperStr c2Call.method) = true ∧
      matchesCallType c2Call c2Rule = true := by
  refine ⟨rfl, ?_, ?_, ?_⟩ <;> with_unfolding_all decide

/-! ## Claim C10 — the nested-key search has no depth cap, but its
recursion is bounded by the payload's own depth -/

mutual
/-- With fuel at least the payload's depth, the capped search agrees with
`hasNestedKey`. -/
theorem hasNestedKeyCapped_eq_of_depth_le : ∀ (v : JVal) (key : Str) (n : Nat),
    jDepth v ≤ n → hasNestedKeyCapped n v key = hasNestedKey v key
  | .obj fields, key, Nat.succ d, h => by
    have hf : jDepthFields fields ≤ d := by
      have hd : jDepth (.obj fields) = jDepthFields fields + 1 := rfl
      omega
    simp only [hasNestedKeyCapped, hasNestedKey,
      hasNestedKeyCappedFields_eq_of_depth_le fields key d hf]
  | .obj fields, key, 0, h => by
    exfalso
    have hd : jDepth (.obj fields) = jDepthFields fields + 1 := rfl
    omega
  | .arr elems, key, Nat.succ d, h => by
    have he : jDepthElems elems ≤ d := by
      have hd : jDepth (.arr elems) = jDepthElems elems + 1 := rfl
      omega
    simp only [hasNestedKeyCapped, hasNestedKey,
      hasNestedKeyCappedElems_eq_of_depth_le elems key d he]
  | .arr elems, key, 0, h => by
    exfalso
    have hd : jDepth (.arr elems) = jDepthElems elems + 1 := rfl
    omega
  | .null, _, n, _ => by cases n <;> simp [hasNestedKeyCapped, hasNestedKey]
  | .bool b, _, n, _ => by cases n <;> simp [hasNestedKeyCapped, hasNestedKey]
  | .num m, _, n, _ => by cases n <;> simp [hasNestedKeyCapped, hasNestedKey]
  | .str s, _, n, _ => by cases n <;> simp [hasNestedKeyCapped, hasNestedKey]

/-- Field-list version of `hasNestedKeyCapped_eq_of_depth_le`. -/
theorem hasNestedKeyCappedFields_eq_of_depth_le : ∀ (fields : List (Str × JVal)) (key : Str)
    (d : Nat), jDepthFields fields ≤ d →
    hasNestedKeyCappedFields d fields key = hasNestedKeyFields fields key
  | [], _, d, _ => by simp [hasNestedKeyCappedFields, hasNestedKeyFields]
  | (nm, v) :: rest, key, d, h => by
    have hd : jDepthFields ((nm, v) :: rest) = max (jDepth v) (jDepthFields rest) := rfl
    have hv : jDepth v ≤ d := by omega
    have hr : jDepthFields rest ≤ d := by omega
    simp only [hasNestedKeyCappedFields, hasNestedKeyFields,
      hasNestedKeyCapped_eq_of_depth_le v key d hv,
      hasNestedKeyCappedFields_eq_of_depth_le rest key d hr]

/-- Element-list version of `hasNestedKeyCapped_eq_of_depth_le`. -/
theorem hasNestedKeyCappedElems_eq_of_depth_le : ∀ (elems : List JVal) (key : Str) (d : Nat),
    jDepthElems elems ≤ d → hasNestedKeyCappedElems d elems key = hasNestedKeyElems elems key
  | [], _, d, _ => by simp [hasNestedKeyCappedElems, hasNestedKeyElems]
  | v :: rest, key, d, h => by
    have hd : jDepthElems (v :: rest) = max (jDepth v) (jDepthElems rest) := rfl
    have hv : jDepth v ≤ d := by omega
    have hr : jDepthElems rest ≤ d := by omega
    simp only [hasNestedKeyCappedElems, hasNestedKeyElems,
      hasNestedKeyCapped_eq_of_depth_le v key d hv,
      hasNestedKeyCappedElems_eq_of_depth_le rest key d hr]
end

/-- The uncapped search finds `needle` at every depth. -/
theorem hasNestedKey_nestChain : ∀ n, hasNestedKey (nestChain n) "needle".data = true
  | 0 => by with_unfolding_all decide
  | n + 1 => by
    have ih := hasNestedKey_nestChain n
    have hobj : isObjType (nestChain n) = true := by cases n <;> rfl
    have hown : hasOwnKey [ ("wrap".data, nestChain n) ] "needle".data = false := by
      simp +decide [hasOwnKey]
    show hasNestedKey (.obj [ ("wrap".data, nestChain n) ]) "needle".data = true
    simp [hasNestedKey, hasNestedKeyFields, hown, hobj, ih]

/-- The capped search gives up on a chain deeper than its fuel. -/
theorem hasNestedKeyCapped_nestChain :
    ∀ (d n : Nat), d ≤ n → hasNestedKeyCapped d (nestChain n) "needle".data = false
  | 0, n, _ => by cases hn : nestChain n <;> simp [hasNestedKeyCapped]
  | d + 1, n, h => by
    match n, h with
    | Nat.succ m, h =>
      have ih := hasNestedKeyCapped_nestChain d m (by omega)
      have hobj : isObjType (nestChain m) = true := by cases m <;> rfl
      have hown : hasOwnKey [ ("wrap".data, nestChain m) ] "needle".data = false := by
        simp +decide [hasOwnKey]
      show hasNestedKeyCapped (d + 1) (.obj [ ("wrap".data, nestChain m) ]) "needle".data = false
      simp [hasNestedKeyCapped, hasNestedKeyCappedFields, hown, hobj, ih]

/-- C10, counterexample: no fixed depth cap reproduces `hasNestedKey` —
for every candidate cap `d` the chain `nestChain d` (depth `d + 1`) is
found by the code's search but not by the `d`-capped search, so the code's
recursion depth is not capped. -/
theorem c10_counterexample :
    ¬ ∃ d : Nat, ∀ (v : JVal) (key : Str), hasNestedKey v key = hasNestedKeyCapped d v key := by
  rintro ⟨d, h⟩
  have h1 := hasNestedKey_nestChain d
  have h2 := hasNestedKeyCapped_nestChain d d le_rfl
  rw [h (nestChain d) "needle".data, h2] at h1
  cases h1

/-- C10 (amended): the nested-key search terminates on every structured
payload because the recursion is structural — it never needs to descend
deeper than the payload's own (finite) nesting depth, as witnessed by its
agreement with the depth-capped search at fuel `jDepth v`; the code itself
imposes no depth cap, so cyclic payloads (not representable as finite
structured data) are not protected. -/
theorem c10_recursion_bounded_by_payload_depth (v : JVal) (key : Str) :
    hasNestedKeyCapped (jDepth v) v key = hasNestedKey v key :=
  hasNestedKeyCapped_eq_of_depth_le v key (jDepth v) le_rfl

/-! ## Claim C4 — confidence bounds -/

/-- Time proximity is nonnegative (clamped by `Math.max(0, ...)`). -/
theorem timeProximityScore_nonneg (d : Nat) : 0 ≤ timeProximityScore d :=
  le_max_left 0 _

/-- The operation factor is nonnegative. -/
theorem calculateOperationMatch_nonneg (networkCall : Call) (salesforceLog : SfLog) :
    0 ≤ calculateOperationMatch networkCall salesforceLog := by
  unfold calculateOperationMatch
  refine le_min ?_ (by norm_num)
  split_ifs <;> norm_num

/-- The content factor is nonnegative. -/
theorem calculateContentMatch_nonneg (networkCall : Call) (salesforceLog : SfLog) :
    0 ≤ calculateContentMatch networkCall salesforceLog := by
  unfold calculateContentMatch
  refine le_min ?_ (by norm_num)
  positivity

/-- The error factor is nonnegative. -/
theorem calculateErrorMatch_nonneg (networkCall : Call) (salesforceLog : SfLog) :
    0 ≤ calculateErrorMatch networkCall salesforceLog := by
  unfold calculateErrorMatch
  split_ifs
  · norm_num
  · dsimp only
    split_ifs
    · norm_num
    · refine le_min ?_ (by norm_num)
      positivity
    · exact le_min le_rfl (by norm_num)

/-- The identifier factor is nonnegative. -/
theorem calculateIdMatch_nonneg (networkCall : Call) (salesforceLog : SfLog) :
    0 ≤ calculateIdMatch networkCall salesforceLog := by
  unfold calculateIdMatch
  refine le_min ?_ (by norm_num)
  have h1 : (0 : ℚ) ≤
      (match networkCall.checkoutId with
        | some id => if !id.isEmpty && includesStr salesforceLog.body id then (15 : ℚ) else 0
        | none => 0) := by
    cases networkCall.checkoutId with
    | none => norm_num
    | some id => dsimp only; split_ifs <;> norm_num
  have h2 : (0 : ℚ) ≤
      (match networkCall.webstoreId with
        | some id => if !id.isEmpty && includesStr salesforceLog.body id then (10 : ℚ) else 0
        | none => 0) := by
    cases networkCall.webstoreId with
    | none => norm_num
    | some id => dsimp only; split_ifs <;> norm_num
  have h3 : (0 : ℚ) ≤
      (if optTruthy networkCall.requestBody then
        match extractPaymentToken networkCall.requestBody with
        | some v =>
          if jTruthy v && includesStr salesforceLog.body (jToString v) then (12 : ℚ) else 0
        | none => 0
      else 0) := by
    split_ifs with h
    · cases extractPaymentToken networkCall.requestBody with
      | none => norm_num
      | some v => dsimp only; split_ifs <;> norm_num
    · norm_num
  linarith

/-- The raw score (sum of the five factors) is nonnegative. -/
theorem calculateCorrelation_score_nonneg (networkCall : Call) (salesforceLog : SfLog) :
    0 ≤ (calculateCorrelation networkCall salesforceLog).score := by
  have h1 := timeProximityScore_nonneg (timeDiffMs networkCall salesforceLog)
  have h2 := calculateOperationMatch_nonneg networkCall salesforceLog
  have h3 := calculateContentMatch_nonneg networkCall salesforceLog
  have h4 := calculateErrorMatch_nonneg networkCall salesforceLog
  have h5 := calculateIdMatch_nonneg networkCall salesforceLog
  have hs : (calculateCorrelation networkCall salesforceLog).score =
      timeProximityScore (timeDiffMs networkCall salesforceLog) +
        calculateOperationMatch networkCall salesforceLog +
        calculateContentMatch networkCall salesforceLog +
        calculateErrorMatch networkCall salesforceLog +
        calculateIdMatch networkCall salesforceLog := rfl
  rw [hs]
  linarith

/-- C4: for every interaction/diagnostic pair, whatever the values of the
pair's fields, the confidence computed by the correlator's scoring
function (`CorrelationEngine.calculateCorrelation`) lies in `[0, 1]`. -/
theorem c4_confidence_bounds (networkCall : Call) (salesforceLog : SfLog) :
    0 ≤ (calculateCorrelation networkCall salesforceLog).confidence ∧
      (calculateCorrelation networkCall salesforceLog).confidence ≤ 1 := by
  have hconf : (calculateCorrelation networkCall salesforceLog).confidence =
      min ((calculateCorrelation networkCall salesforceLog).score / 100) 1 := rfl
  constructor
  · rw [hconf]
    refine le_min ?_ zero_le_one
    exact div_nonneg (calculateCorrelation_score_nonneg networkCall salesforceLog) (by norm_num)
  · rw [hconf]
    exact min_le_right _ _

/-! ## Claim C3 — time window and confidence threshold -/

/-- C3: every correlation emitted by `correlateAll` pairs an interaction
and a diagnostic whose time difference is at most the configured time
window and whose confidence is at least the configured threshold; its
`timeDifference` is exactly the pair's absolute timestamp difference, so a
diagnostic farther than the window from an interaction never appears in
any emitted correlation with it, whatever the threshold. -/
theorem c3_window_and_threshold (networkCalls : List Call) (salesforceLogs : List SfLog)
    (timeWindow : Nat) (confidenceThreshold : ℚ) (c : Correlation)
    (h : c ∈ correlateAll networkCalls salesforceLogs timeWindow confidenceThreshold) :
    c.timeDifference ≤ timeWindow ∧ confidenceThreshold ≤ c.confidence ∧
      c.timeDifference = timeDiffMs c.networkCall c.salesforceLog := by
  replace h : c ∈ List.insertionSort (fun a b => b.confidence ≤ a.confidence)
      (networkCalls.flatMap (fun call =>
        salesforceLogs.filterMap (fun log =>
          let timeDiff := timeDiffMs call log
          if timeDiff ≤ timeWindow then
            let correlation := calculateCorrelation call log
            if confidenceThreshold ≤ correlation.confidence then
              some { networkCall := call, salesforceLog := log,
                     confidence := correlation.confidence, score := correlation.score,
                     maxScore := correlation.maxScore, ctype := correlation.ctype,
                     timeDifference := timeDiff }
            else none
          else none))) := h
  rw [List.mem_insertionSort] at h
  rw [List.mem_flatMap] at h
  obtain ⟨call, _, hc⟩ := h
  rw [List.mem_filterMap] at hc
  obtain ⟨log, _, heq⟩ := hc
  dsimp only at heq
  split_ifs at heq with h1 h2
  · cases heq
    exact ⟨h1, h2, rfl⟩

/-! ## Claim C5 — output ordering (and the C3 witness data) -/

set_option maxRecDepth 80000 in
/-- Evaluating the correlator on the engineered pairs: both correlations
have confidence 151/240 and the far one is emitted (and kept) first. -/
theorem c5out_eq : c5out = [ c5corrFar, c5corrNear ] := by
  with_unfolding_all rfl

/-- C5, counterexample: the two emitted correlations have equal confidence,
yet the one with the larger `timeDifference` (250 000 ms) precedes the one
with the smaller (10 000 ms) — the claimed smaller-time-difference
tie-break does not hold. -/
theorem c5_counterexample :
    c5out.map (fun c => c.confidence) = [ 151 / 240, 151 / 240 ] ∧
      c5out.map (fun c => c.timeDifference) = [ 250000, 10000 ] := by
  rw [c5out_eq]
  exact ⟨rfl, rfl⟩

/-- C5 (amended): the sequence returned by the correlator is sorted by
confidence descending; correlations of equal confidence keep the order in
which they were generated (JavaScript's sort is stable) — they are not
reordered by smaller `timeDifference` first. -/
theorem c5_sorted_by_confidence_desc (networkCalls : List Call) (salesforceLogs : List SfLog)
    (timeWindow : Nat) (confidenceThreshold : ℚ) :
    List.Sorted (fun a b : Correlation => b.confidence ≤ a.confidence)
      (correlateAll networkCalls salesforceLogs timeWindow confidenceThreshold) := by
  letI : IsTotal Correlation (fun a b : Correlation => b.confidence ≤ a.confidence) :=
    ⟨fun a b => le_total b.confidence a.confidence⟩
  letI : IsTrans Correlation (fun a b : Correlation => b.confidence ≤ a.confidence) :=
    ⟨fun a b c hab hbc => le_trans hbc hab⟩
  exact List.sorted_insertionSort _ _

/-- C3, witness: the near correlation of the engineered example is
emitted, and — by `c3_window_and_threshold` — lies within the default
window with confidence at least the default threshold. -/
theorem c3_witness :
    (c5corrNear ∈ c5out) ∧ c5corrNear.timeDifference ≤ defaultTimeWindow ∧
      defaultConfidenceThreshold ≤ c5corrNear.confidence := by
  have hm : c5corrNear ∈ c5out := by
    rw [c5out_eq]
    exact List.mem_cons_of_mem _ (List.mem_cons_self _ _)
  have h := c3_window_and_threshold [ c5call ] [ c5log2, c5log1 ] defaultTimeWindow
    defaultConfidenceThreshold c5corrNear hm
  exact ⟨hm, h.1, h.2.1⟩

/-! ## Claim C6 — monotonicity in the diagnostic's raw content -/

/-- A substring of a string is a substring of any extension of it. -/
theorem includesStr_append (hay ext needle : Str) (h : includesStr hay needle = true) :
    includesStr (hay ++ ext) needle = true := by
  have h' : needle <:+: hay := of_decide_eq_true h
  exact decide_eq_true (h'.trans ⟨[], ext, by simp⟩)

/-- Lowercasing distributes over concatenation. -/
theorem lowerStr_append (a b : Str) : lowerStr (a ++ b) = lowerStr a ++ lowerStr b :=
  List.map_append _ _ _

/-- The content factor never decreases when the log body is extended. -/
theorem calculateContentMatch_mono (networkCall : Call) (salesforceLog : SfLog) (ext : Str) :
    calculateContentMatch networkCall salesforceLog ≤
      calculateContentMatch networkCall { salesforceLog with body := salesforceLog.body ++ ext } := by
  unfold calculateContentMatch
  dsimp only
  refine min_le_min ?_ le_rfl
  have hcnt : (extractKeywords networkCall).countP
        (fun k => includesStr (lowerStr salesforceLog.body) k) ≤
      (extractKeywords networkCall).countP
        (fun k => includesStr (lowerStr (salesforceLog.body ++ ext)) k) := by
    apply List.countP_mono_left
    intro k _ hk
    rw [lowerStr_append]
    exact includesStr_append _ _ _ hk
  have hq : ((extractKeywords networkCall).countP
        (fun k => includesStr (lowerStr salesforceLog.body) k) : ℚ) ≤
      ((extractKeywords networkCall).countP
        (fun k => includesStr (lowerStr (salesforceLog.body ++ ext)) k) : ℚ) := by
    exact_mod_cast hcnt
  linarith

/-- The identifier factor never decreases when the log body is extended. -/
theorem calculateIdMatch_mono (networkCall : Call) (salesforceLog : SfLog) (ext : Str) :
    calculateIdMatch networkCall salesforceLog ≤
      calculateIdMatch networkCall { salesforceLog with body := salesforceLog.body ++ ext } := by
  unfold calculateIdMatch
  dsimp only
  refine min_le_min ?_ le_rfl
  have hchk : (match networkCall.checkoutId with
      | some id => if !id.isEmpty && includesStr salesforceLog.body id then (15 : ℚ) else 0
      | none => 0) ≤
      (match networkCall.checkoutId with
      | some id =>
        if !id.isEmpty && includesStr (salesforceLog.body ++ ext) id then (15 : ℚ) else 0
      | none => 0) := by
    cases networkCall.checkoutId with
    | none => exact le_rfl
    | some id =>
      dsimp only
      by_cases h : (!id.isEmpty && includesStr salesforceLog.body id) = true
      · have hboth := h
        rw [Bool.and_eq_true] at hboth
        rw [if_pos h, if_pos (by
          rw [Bool.and_eq_true]
          exact ⟨hboth.1, includesStr_append _ _ _ hboth.2⟩)]
      · rw [if_neg h]
        split_ifs <;> norm_num
  have hweb : (match networkCall.webstoreId with
      | some id => if !id.isEmpty && includesStr salesforceLog.body id then (10 : ℚ) else 0
      | none => 0) ≤
      (match networkCall.webstoreId with
      | some id =>
        if !id.isEmpty && includesStr (salesforceLog.body ++ ext) id then (10 : ℚ) else 0
      | none => 0) := by
    cases networkCall.webstoreId with
    | none => exact le_rfl
    | some id =>
      dsimp only
      by_cases h : (!id.isEmpty && includesStr salesforceLog.body id) = true
      · have hboth := h
        rw [Bool.and_eq_true] at hboth
        rw [if_pos h, if_pos (by
          rw [Bool.and_eq_true]
          exact ⟨hboth.1, includesStr_append _ _ _ hboth.2⟩)]
      · rw [if_neg h]
        split_ifs <;> norm_num
  have htok : (if optTruthy networkCall.requestBody then
      match extractPaymentToken networkCall.requestBody with
      | some v =>
        if jTruthy v && includesStr salesforceLog.body (jToString v) then (12 : ℚ) else 0
      | none => 0
    else 0) ≤
      (if optTruthy networkCall.requestBody then
      match extractPaymentToken networkCall.requestBody with
      | some v =>
        if jTruthy v && includesStr (salesforceLog.body ++ ext) (jToString v) then (12 : ℚ) else 0
      | none => 0
    else 0) := by
    split_ifs with h
    · cases extractPaymentToken networkCall.requestBody with
      | none => exact le_rfl
      | some v =>
        dsimp only
        by_cases hv : (jTruthy v && includesStr salesforceLog.body (jToString v)) = true
        · have hboth := hv
          rw [Bool.and_eq_true] at hboth
          rw [if_pos hv, if_pos (by
            rw [Bool.and_eq_true]
            exact ⟨hboth.1, includesStr_append _ _ _ hboth.2⟩)]
        · rw [if_neg hv]
          split_ifs <;> norm_num
    · exact le_rfl
  linarith

/-- C6: appending any extension to the diagnostic's raw content — in
particular one that makes it contain the interaction's checkout/session
identifier verbatim — never decreases the computed confidence: the
time, operation and error factors are unchanged, and the content and
identifier factors are monotone in the body. -/
theorem c6_confidence_monotone_in_body (networkCall : Call) (salesforceLog : SfLog) (ext : Str) :
    (calculateCorrelation networkCall salesforceLog).confidence ≤
      (calculateCorrelation networkCall
        { salesforceLog with body := salesforceLog.body ++ ext }).confidence := by
  have hcontent := calculateContentMatch_mono networkCall salesforceLog ext
  have hid := calculateIdMatch_mono networkCall salesforceLog ext
  have hscore : (calculateCorrelation networkCall salesforceLog).score ≤
      (calculateCorrelation networkCall
        { salesforceLog with body := salesforceLog.body ++ ext }).score := by
    have h1 : (calculateCorrelation networkCall salesforceLog).score =
        timeProximityScore (timeDiffMs networkCall salesforceLog) +
          calculateOperationMatch networkCall salesforceLog +
          calculateContentMatch networkCall salesforceLog +
          calculateErrorMatch networkCall salesforceLog +
          calculateIdMatch networkCall salesforceLog := rfl
    have h2 : (calculateCorrelation networkCall
        { salesforceLog with body := salesforceLog.body ++ ext }).score =
        timeProximityScore (timeDiffMs networkCall salesforceLog) +
          calculateOperationMatch networkCall salesforceLog +
          calculateContentMatch networkCall { salesforceLog with body := salesforceLog.body ++ ext } +
          calculateErrorMatch networkCall salesforceLog +
          calculateIdMatch networkCall { salesforceLog with body := salesforceLog.body ++ ext } := rfl
    rw [h1, h2]
    linarith
  have hconf1 : (calculateCorrelation networkCall salesforceLog).confidence =
      min ((calculateCorrelation networkCall salesforceLog).score / 100) 1 := rfl
  have hconf2 : (calculateCorrelation networkCall
      { salesforceLog with body := salesforceLog.body ++ ext }).confidence =
      min ((calculateCorrelation networkCall
        { salesforceLog with body := salesforceLog.body ++ ext }).score / 100) 1 := rfl
  rw [hconf1, hconf2]
  refine min_le_min ?_ le_rfl
  exact (div_le_div_iff_of_pos_right (by norm_num)).mpr hscore

/-! ## Claim C7 — apex class and user info: which occurrence wins -/

/-- `getLast?` of a cons, in `Option.or` form. -/
theorem getLast?_cons_or {α : Type} (a : α) (t : List α) :
    (a :: t).getLast? = Option.or t.getLast? (some a) := by
  cases t with
  | nil => rfl
  | cons b bs =>
    rw [List.getLast?_cons_cons]
    cases h : (b :: bs).getLast? with
    | none =>
      exfalso
      rw [List.getLast?_eq_none_iff] at h
      cases h
    | some x => rfl

/-- Associativity of JavaScript-style overwrite on optional values. -/
theorem option_or_assoc {α : Type} (a b c : Option α) :
    Option.or (Option.or a b) c = Option.or a (Option.or b c) := by
  cases a <;> rfl

/-- Accumulating the parser over a list of lines: the recorded apex class
is the value of the LAST line that yields one (later lines overwrite). -/
theorem foldl_processLine_apexClass (lines : List Str) (p : ParsedLog) :
    (lines.foldl processLine p).apexClass =
      Option.or ((lines.filterMap apexOfLine).getLast?) p.apexClass := by
  induction lines generalizing p with
  | nil => simp
  | cons l ls ih =>
    rw [List.foldl_cons, ih]
    have hp : (processLine p l).apexClass = Option.or (apexOfLine l) p.apexClass := rfl
    rw [hp, List.filterMap_cons]
    cases h : apexOfLine l with
    | none => simp
    | some nm => rw [getLast?_cons_or, option_or_assoc]

/-- Accumulating the parser over a list of lines: the recorded user
identifier is the value of the LAST line that yields one. -/
theorem foldl_processLine_userInfo (lines : List Str) (p : ParsedLog) :
    (lines.foldl processLine p).userInfo =
      Option.or ((lines.filterMap userOfLine).getLast?) p.userInfo := by
  induction lines generalizing p with
  | nil => simp
  | cons l ls ih =>
    rw [List.foldl_cons, ih]
    have hp : (processLine p l).userInfo = Option.or (userOfLine l) p.userInfo := rfl
    rw [hp, List.filterMap_cons]
    cases h : userOfLine l with
    | none => simp
    | some nm => rw [getLast?_cons_or, option_or_assoc]

/-- C7 (amended): when the parser processes raw content, the LAST line
containing an `apex://` reference determines the recorded class/unit name
and the LAST user-info line determines the recorded actor identifier —
later matching lines overwrite the value set by earlier ones. -/
theorem c7_last_occurrence_wins (logBody : Str) (p : ParsedLog)
    (h : parseLogContent logBody = some p) :
    p.apexClass = ((logBody.splitOn '\n').filterMap apexOfLine).getLast? ∧
      p.userInfo = ((logBody.splitOn '\n').filterMap userOfLine).getLast? := by
  unfold parseLogContent at h
  split_ifs at h
  cases h
  constructor
  · rw [foldl_processLine_apexClass]
    cases hl : ((logBody.splitOn '\n').filterMap apexOfLine).getLast? <;> rfl
  · rw [foldl_processLine_userInfo]
    cases hl : ((logBody.splitOn '\n').filterMap userOfLine).getLast? <;> rfl

/-- C7, counterexample: the first matching lines carry `FirstClass` and
`first@x`, but the parsed diagnostic records the SECOND occurrences —
later matching lines do overwrite. -/
theorem c7_counterexample :
    (parseLogContent c7body).map (fun p => p.apexClass) = some (some "SecondClass".data) ∧
      (parseLogContent c7body).map (fun p => p.userInfo) = some (some "second@y".data) ∧
      apexOfLine "x [EXTERNAL]|apex://FirstClass/method".data = some "FirstClass".data ∧
      userOfLine "a|USER_INFO|first@x|z".data = some "first@x".data := by
  refine ⟨?_, ?_, ?_, ?_⟩ <;> with_unfolding_all rfl

/-- C7, witness: the amended theorem applied to `c7body`. -/
theorem c7_witness :
    parseLogContent c7body = some c7parsed ∧
      c7parsed.apexClass = ((c7body.splitOn '\n').filterMap apexOfLine).getLast? ∧
      c7parsed.userInfo = ((c7body.splitOn '\n').filterMap userOfLine).getLast? := by
  have hp : parseLogContent c7body = some c7parsed := by with_unfolding_all rfl
  exact ⟨hp, (c7_last_occurrence_wins c7body c7parsed hp).1,
    (c7_last_occurrence_wins c7body c7parsed hp).2⟩

/-! ## Claim C8 — the spec's example scenario -/

/-- C8, counterexample: the example interaction is NOT classified as
`payment` (no payment payload matcher fires — the response's only nested
keys are `errors`/`message`), and at the default threshold the correlator
emits NO correlation for the pair (its confidence 599/2400 ≈ 0.25 is below
0.6). -/
theorem c8_counterexample :
    (analyzeCall defaultCallTypes c8Call).callType ≠ some "payment".data ∧
      correlateAll [ c8AnalyzedCall ] [ c8Log ] defaultTimeWindow defaultConfidenceThreshold
        = [] := by
  constructor
  · with_unfolding_all decide
  · with_unfolding_all rfl

/-- C8 (amended): the example interaction classifies as `checkout` (stage
`checkout`) with validator result `isSuccessful = false` and extracted
checkout id `ABC123456789012`; for the pair, `determineCorrelationType`
would be `"error"`, but the computed confidence is exactly 599/2400,
below the default threshold 0.6 (and below the coarse profile's 0.3), so
no correlation is emitted. -/
theorem c8_example_scenario :
    (analyzeCall defaultCallTypes c8Call).callType = some "checkout".data ∧
      (analyzeCall defaultCallTypes c8Call).checkoutStage = some "checkout".data ∧
      (analyzeCall defaultCallTypes c8Call).validatorResults = [ ("isSuccessful".data, false) ] ∧
      (analyzeCall defaultCallTypes c8Call).extracted =
        [ ("checkoutId".data, JVal.str "ABC123456789012".data) ] ∧
      determineCorrelationType c8AnalyzedCall c8Log = "error".data ∧
      (calculateCorrelation c8AnalyzedCall c8Log).confidence = 599 / 2400 ∧
      (599 : ℚ) / 2400 < defaultConfidenceThreshold ∧ (599 : ℚ) / 2400 < 3 / 10 ∧
      correlateAll [ c8AnalyzedCall ] [ c8Log ] defaultTimeWindow defaultConfidenceThreshold
        = [] := by
  refine ⟨?_, ?_, ?_, ?_, ?_, ?_, ?_, ?_, ?_⟩ <;> with_unfolding_all (first | rfl | decide)

/-! ## Claim C9 — string similarity: identical and disjoint strings

To reason about the matrix-based `levenshteinDistance`, we relate it to
the textbook recursive Levenshtein distance `levR` (first argument: the
reversed row string, second: the reversed column string) and prove the
needed values on `levR`. -/

/-- `levR` against the empty string is the string's length. -/
theorem levR_nil_right : ∀ u : List Char, levR u [] = u.length
  | [] => by simp [levR]
  | _ :: _ => by simp [levR]

/-- The inner matrix loop computes exactly the `levR` values of the next
row. -/
theorem levRowAux_spec (c2 : Char) (u : List Char) :
    ∀ (cs v : List Char),
      levRowAux c2 cs (levR u v) (specCols u v cs) (levR (c2 :: u) v) =
        specCols (c2 :: u) v cs := by
  intro cs
  induction cs with
  | nil => intro v; rfl
  | cons c cs ih =>
    intro v
    have hs : specCols u v (c :: cs) = levR u (c :: v) :: specCols u (c :: v) cs := rfl
    rw [hs]
    have hcur : (if c = c2 then levR u v
        else Nat.min (levR u v + 1) (Nat.min (levR (c2 :: u) v + 1) (levR u (c :: v) + 1)))
        = levR (c2 :: u) (c :: v) := by
      by_cases hc : c = c2
      · rw [if_pos hc]
        subst hc
        simp [levR]
      · rw [if_neg hc]
        have hc' : ¬(c2 = c) := fun hcc => hc hcc.symm
        simp [levR, hc']
    calc levRowAux c2 (c :: cs) (levR u v)
          (levR u (c :: v) :: specCols u (c :: v) cs) (levR (c2 :: u) v)
        = (if c = c2 then levR u v
            else Nat.min (levR u v + 1)
              (Nat.min (levR (c2 :: u) v + 1) (levR u (c :: v) + 1))) ::
            levRowAux c2 cs (levR u (c :: v)) (specCols u (c :: v) cs)
              (if c = c2 then levR u v
                else Nat.min (levR u v + 1)
                  (Nat.min (levR (c2 :: u) v + 1) (levR u (c :: v) + 1))) := by
          simp [levRowAux]
      _ = levR (c2 :: u) (c :: v) ::
            levRowAux c2 cs (levR u (c :: v)) (specCols u (c :: v) cs)
              (levR (c2 :: u) (c :: v)) := by rw [hcur]
      _ = levR (c2 :: u) (c :: v) :: specCols (c2 :: u) (c :: v) cs := by rw [ih (c :: v)]
      _ = specCols (c2 :: u) v (c :: cs) := rfl

/-- One outer-loop step sends the row for `u` to the row for `c2 :: u`. -/
theorem levRowStart_spec (c2 : Char) (s1 u : List Char) :
    levRowStart c2 s1 (rowFull u s1) = rowFull (c2 :: u) s1 := by
  have hstep : levRowStart c2 s1 (levR u [] :: specCols u [] s1) =
      (levR u [] + 1) :: levRowAux c2 s1 (levR u []) (specCols u [] s1) (levR u [] + 1) := by
    simp [levRowStart]
  have hleft : levR u [] + 1 = levR (c2 :: u) [] := by
    rw [levR_nil_right, levR_nil_right]
    rfl
  show levRowStart c2 s1 (levR u [] :: specCols u [] s1) = _
  rw [hstep, hleft, levRowAux_spec c2 u s1 []]
  rfl

/-- The whole outer fold computes the row of the reversed processed
string. -/
theorem foldl_levRowStart (s1 : List Char) :
    ∀ (t u : List Char),
      t.foldl (fun prev c2 => levRowStart c2 s1 prev) (rowFull u s1) =
        rowFull (t.reverse ++ u) s1 := by
  intro t
  induction t with
  | nil => intro u; simp
  | cons c ts ih =>
    intro u
    rw [List.foldl_cons, levRowStart_spec c s1 u, ih (c :: u)]
    congr 1
    simp

/-- The base-case columns are `1, 2, ...` shifted by the processed prefix
length. -/
theorem specCols_nil_levR :
    ∀ (cs v : List Char),
      specCols [] v cs = (List.range cs.length).map (fun i => i + (v.length + 1)) := by
  intro cs
  induction cs with
  | nil => intro v; rfl
  | cons c cs ih =>
    intro v
    have h0 : specCols [] v (c :: cs) = levR [] (c :: v) :: specCols [] (c :: v) cs := rfl
    have h1 : levR [] (c :: v) = v.length + 1 := by simp [levR]
    rw [h0, h1, ih (c :: v)]
    have hr : List.range ((c :: cs).length) = 0 :: (List.range cs.length).map Nat.succ := by
      rw [List.length_cons, List.range_succ_eq_map]
    rw [hr, List.map_cons, List.map_map]
    congr 1
    · omega
    · apply List.map_congr_left
      intro a _
      simp only [Function.comp_apply, List.length_cons, Nat.succ_eq_add_one]
      omega

/-- Row 0 of the matrix is the row of the empty processed prefix. -/
theorem row0_eq_rowFull (s1 : List Char) :
    List.range (s1.length + 1) = rowFull [] s1 := by
  have h0 : levR [] [] = 0 := by simp [levR]
  unfold rowFull
  rw [h0, specCols_nil_levR s1 [], List.range_succ_eq_map]
  simp [Nat.succ_eq_add_one]

/-- The last entry of a full row is the `levR` value of the whole column
string. -/
theorem specCols_getLast (u : List Char) :
    ∀ (cs v : List Char),
      (levR u v :: specCols u v cs).getLast? = some (levR u (cs.reverse ++ v)) := by
  intro cs
  induction cs with
  | nil => intro v; simp [specCols]
  | cons c cs ih =>
    intro v
    have h0 : specCols u v (c :: cs) = levR u (c :: v) :: specCols u (c :: v) cs := rfl
    rw [h0, List.getLast?_cons_cons, ih (c :: v)]
    congr 2
    simp

/-- The matrix algorithm of the source computes the recursive Levenshtein
distance of the reversed strings (hence the Levenshtein distance of the
strings themselves). -/
theorem levenshteinDistance_eq_levR (str1 str2 : Str) :
    levenshteinDistance str1 str2 = levR str2.reverse str1.reverse := by
  unfold levenshteinDistance
  dsimp only
  rw [row0_eq_rowFull str1, foldl_levRowStart str1 str2 []]
  rw [List.append_nil]
  show (levR str2.reverse [] :: specCols str2.reverse [] str1).getLast?.getD 0 = _
  rw [specCols_getLast str2.reverse str1 []]
  simp

/-- The distance of a string to itself is 0. -/
theorem levR_self : ∀ t : List Char, levR t t = 0
  | [] => by simp [levR]
  | x :: xs => by simp [levR, levR_self xs]

/-- On strings with no character in common, the distance is the longer
length. -/
theorem levR_disjoint : ∀ (a b : List Char), (∀ x ∈ a, ∀ y ∈ b, x ≠ y) →
    levR a b = max a.length b.length := by
  intro a
  induction a with
  | nil =>
    intro b _
    simp [levR]
  | cons x xs iha =>
    intro b
    induction b with
    | nil =>
      intro _
      rw [levR_nil_right]
      simp
    | cons y ys ihb =>
      intro h
      have hxy : x ≠ y := h x (List.mem_cons_self _ _) y (List.mem_cons_self _ _)
      have h1 : levR xs ys = max xs.length ys.length :=
        iha ys (fun x' hx y' hy =>
          h x' (List.mem_cons_of_mem _ hx) y' (List.mem_cons_of_mem _ hy))
      have h2 : levR (x :: xs) ys = max (x :: xs).length ys.length :=
        ihb (fun x' hx y' hy => h x' hx y' (List.mem_cons_of_mem _ hy))
      have h3 : levR xs (y :: ys) = max xs.length (y :: ys).length :=
        iha (y :: ys) (fun x' hx y' hy => h x' (List.mem_cons_of_mem _ hx) y' hy)
      rw [levR]
      rw [if_neg hxy, h1, h2, h3]
      simp only [List.length_cons, Nat.min_def, max_def]
      split_ifs <;> omega

/-- C9, counterexample: on the pair of identical EMPTY strings the
similarity is 0, not 1.0 — the falsy-string guard
`if (!str1 || !str2) return 0` catches empty strings before the
`longer.length === 0` branch can return 1. -/
theorem c9_counterexample :
    calculateStringSimilarity [] [] = 0 ∧ (0 : ℚ) ≠ 1 := by
  constructor
  · rfl
  · norm_num

/-- C9 (amended): the similarity function returns exactly 1.0 on every
pair of identical NONEMPTY strings (the pair of empty strings instead
yields 0, by the falsy-string guard), and exactly 0 on every pair of
completely disjoint equal-length strings. -/
theorem c9_similarity_values :
    (∀ s : Str, s ≠ [] → calculateStringSimilarity s s = 1) ∧
      (∀ s t : Str, s.length = t.length → (∀ x ∈ s, ∀ y ∈ t, x ≠ y) →
        calculateStringSimilarity s t = 0) := by
  constructor
  · intro s hs
    unfold calculateStringSimilarity
    rw [if_neg (by simp [List.isEmpty_iff, hs])]
    dsimp only
    rw [if_neg (lt_irrefl s.length)]
    rw [if_neg (by simp [List.length_eq_zero, hs])]
    rw [levenshteinDistance_eq_levR, levR_self]
    have hn : (s.length : ℚ) ≠ 0 := by
      simpa [List.length_eq_zero] using hs
    field_simp
  · intro s t hlen hdisj
    by_cases hs : s = []
    · have ht : t = [] := by
        subst hs
        exact List.length_eq_zero.mp hlen.symm
      subst hs; subst ht
      rfl
    · have ht : t ≠ [] := by
        intro h
        apply hs
        apply List.length_eq_zero.mp
        rw [hlen, h]
        rfl
      unfold calculateStringSimilarity
      rw [if_neg (by simp [List.isEmpty_iff, hs, ht])]
      dsimp only
      have hgt : ¬ (s.length > t.length) := by omega
      simp only [if_neg hgt]
      rw [if_neg (by simp [List.length_eq_zero, ht])]
      rw [levenshteinDistance_eq_levR]
      have hd : levR s.reverse t.reverse = max s.reverse.length t.reverse.length := by
        apply levR_disjoint
        intro x hx y hy
        exact hdisj x (List.mem_reverse.mp hx) y (List.mem_reverse.mp hy)
      rw [hd]
      simp only [List.length_reverse]
      rw [hlen, max_self]
      rw [sub_self, zero_div]

/-- C9, witness: the amended theorem applied to `"ab"/"ab"` (similarity
exactly 1) and to the disjoint equal-length pair `"ab"/"cd"` (similarity
exactly 0). -/
theorem c9_witness :
    ("ab".data ≠ ([] : Str)) ∧ calculateStringSimilarity "ab".data "ab".data = 1 ∧
      ("ab".data : Str).length = ("cd".data : Str).length ∧
      (∀ x ∈ ("ab".data : Str), ∀ y ∈ ("cd".data : Str), x ≠ y) ∧
      calculateStringSimilarity "ab".data "cd".data = 0 := by
  refine ⟨by decide, c9_similarity_values.1 "ab".data (by decide), by decide, by decide,
    c9_similarity_values.2 "ab".data "cd".data (by decide) (by decide)⟩
